import Mathlib

/-!
Verification of the networking-assistant research pipeline.

The repository has two front ends over one pipeline:
a console application (main2.py) and a Tk GUI (app2.py).
This file shallowly embeds the pipeline functions of both files.
Python strings are modelled as Lean String (a list of code points,
matching Python string indexing and slicing semantics); parsed JSON
bodies are an inductive Json value; the network, the HTML fetch and
the language-model call are modelled as explicit outcome parameters;
the persisted JSON store file is a StoreFile value.  Exceptions are
modelled with Except where they can escape a function, and by total
functions where the source catches everything.
-/

/-- Python whitespace used by str.strip and by the regex class for
whitespace, restricted to the ASCII range that the claims exercise
(space, tab, newline, carriage return, vertical tab, form feed).
Python additionally treats some non-ASCII Unicode spaces as whitespace;
the claims never depend on those, and the same set is used uniformly on
both the implementation side and the specification side. -/
def pyIsSpace (c : Char) : Bool :=
  c == ' ' || c == '\t' || c == '\n' || c == '\r' || c == '\x0B' || c == '\x0C'

/-- Strip pyIsSpace characters from both ends of a character list. -/
def stripChars (l : List Char) : List Char :=
  ((l.dropWhile pyIsSpace).reverse.dropWhile pyIsSpace).reverse

/-- Python str.strip() with no argument. -/
def pyStrip (s : String) : String := ⟨stripChars s.data⟩

/-- Python slicing s[:n] on a string: the first n code points. -/
def pyTake (n : Nat) (s : String) : String := ⟨s.data.take n⟩

/-- sanitize_input from main2.py: text.strip()[:500] if text else "".
The condition is Python truthiness of the string, that is non-emptiness. -/
def sanitize_input (text : String) : String :=
  if text = "" then "" else pyTake 500 (pyStrip text)

/-- Parsed JSON values, as returned by response.json(). -/
inductive Json where
  | null
  | bool (b : Bool)
  | num (n : Int)
  | str (s : String)
  | arr (elems : List Json)
  | obj (fields : List (String × Json))

/-- Python dict.get(key, default) on a parsed JSON object given as an
association list (Python dicts have unique keys, so first match suffices). -/
def jsonGetD (kvs : List (String × Json)) (k : String) (d : Json) : Json :=
  match kvs with
  | [] => d
  | (k', v) :: r => if k' = k then v else jsonGetD r k d

/-- Python truthiness of a JSON value. -/
def pyTruthy (j : Json) : Bool :=
  match j with
  | .null => false
  | .bool b => b
  | .num n => n != 0
  | .str s => s != ""
  | .arr l => !l.isEmpty
  | .obj kvs => !kvs.isEmpty

mutual
/-- Python repr of a JSON value, used by str() on non-string values. -/
def pyReprJ : Json → String
  | .null => "None"
  | .bool true => "True"
  | .bool false => "False"
  | .num n => toString n
  | .str s => "\x27" ++ s ++ "\x27"
  | .arr l => "[" ++ String.intercalate ", " (pyReprJList l) ++ "]"
  | .obj kvs => "\x7b" ++ String.intercalate ", " (pyReprJKvs kvs) ++ "\x7d"
/-- Helper of pyReprJ for array elements. -/
def pyReprJList : List Json → List String
  | [] => []
  | j :: r => pyReprJ j :: pyReprJList r
/-- Helper of pyReprJ for object fields. -/
def pyReprJKvs : List (String × Json) → List String
  | [] => []
  | (k, v) :: r => ("\x27" ++ k ++ "\x27: " ++ pyReprJ v) :: pyReprJKvs r
end

/-- Python str() of a JSON value, as used by f-string interpolation:
a string interpolates verbatim, everything else via its repr. -/
def pyFmt (j : Json) : String :=
  match j with
  | .str s => s
  | j => pyReprJ j

/-! ## urllib.parse.urlparse model (scheme and netloc components)

The validator in both files reads only result.scheme and result.netloc,
so the model computes exactly those, following CPython urlsplit:
strip C0-control-or-space characters from both ends, remove every tab,
carriage return and newline, split off a scheme when the text before the
first colon is non-empty, starts with an ASCII letter and consists of
scheme characters (the scheme is lowercased), then take the netloc after
a leading double slash up to the first slash, question mark or hash.
A mismatched square bracket in the netloc raises ValueError.  Deeper,
version-dependent validation of bracketed hosts and of netloc characters
needing NFKC normalization is outside the model; both the implementation
side and the specification side of claim C9 use this same model. -/

/-- Characters allowed in a URL scheme after the first letter. -/
def schemeChar (c : Char) : Bool :=
  c.isAlpha || c.isDigit || c == '+' || c == '-' || c == '.'

/-- Strip C0 control characters and spaces from both ends (WHATWG rule
applied by CPython urlsplit). -/
def urlStripControl (l : List Char) : List Char :=
  ((l.dropWhile (fun c => decide (c.val ≤ 0x20))).reverse.dropWhile
    (fun c => decide (c.val ≤ 0x20))).reverse

/-- Remove tab, carriage return and newline everywhere, the byte removal
CPython urlsplit performs. -/
def removeTabsNewlines (l : List Char) : List Char :=
  l.filter (fun c => !(c == '\t' || c == '\r' || c == '\n'))

/-- Split off the scheme, CPython style: requires a colon at an index
greater than zero, an ASCII-letter first character and scheme characters
throughout; the scheme is lowercased.  Otherwise the scheme is empty and
the input is left whole. -/
def splitScheme (l : List Char) : String × List Char :=
  let pre := l.takeWhile (fun c => c != ':')
  if pre.length < l.length ∧ pre ≠ [] ∧ pre.head?.any Char.isAlpha ∧ pre.all schemeChar then
    (⟨pre.map Char.toLower⟩, l.drop (pre.length + 1))
  else
    ("", l)

/-- Split off the netloc after a leading double slash, up to the first
slash, question mark or hash; otherwise empty. -/
def splitNetloc (l : List Char) : List Char × List Char :=
  match l with
  | '/' :: '/' :: rest =>
    let nl := rest.takeWhile (fun c => !(c == '/' || c == '?' || c == '#'))
    (nl, rest.drop nl.length)
  | _ => ([], l)

/-- Result components of urlparse that is_valid_url consults. -/
structure UrlSplitResult where
  scheme : String
  netloc : String

/-- Model of urllib.parse.urlparse restricted to scheme and netloc;
an unmatched square bracket in the netloc raises ValueError, modelled
as the error case. -/
def urlparse_model (s : String) : Except Unit UrlSplitResult :=
  let l := removeTabsNewlines (urlStripControl s.data)
  let (scheme, rest) := splitScheme l
  let (nl, _) := splitNetloc rest
  if (nl.contains '[') != (nl.contains ']') then
    .error ()
  else
    .ok ⟨scheme, ⟨nl⟩⟩

/-- is_valid_url from main2.py (the method in app2.py is identical):
urlparse the stripped string and require scheme http or https and a
truthy (non-empty) netloc; any exception from parsing yields false. -/
def is_valid_url (url : String) : Bool :=
  match urlparse_model (pyStrip url) with
  | .error _ => false
  | .ok r => ((r.scheme == "http") || (r.scheme == "https")) && (r.netloc != "")

/-! ## NewsAPI fetchers -/

/-- Exception classes that can escape the modelled functions. -/
inductive PyErr where
  | attrError

/-- Outcome of the single requests.get call to the news endpoint.
reqError covers every requests.exceptions.RequestException other than
Timeout: transport failures, non-2xx responses via raise_for_status,
and undecodable JSON bodies (requests raises its own JSONDecodeError,
a RequestException subclass, from response.json()).  success carries
the decoded JSON body. -/
inductive NetOutcome where
  | timeout
  | reqError
  | success (body : Json)

/-- fetch_news from main2.py.  The first component of the returned pair
records whether the requests.get call was reached (the console version
consults only the query before issuing the request; the api_key is put
into the request parameters unexamined).  A body whose top level is not
a JSON object makes data.get raise AttributeError, which none of the
two except clauses (Timeout, RequestException) catches, so it escapes:
hence the Except return type. -/
def fetch_news (api_key query : String) (net : NetOutcome) :
    Except PyErr (Bool × List Json) :=
  if pyStrip query = "" then .ok (false, [])
  else
    match net with
    | .timeout => .ok (true, [])
    | .reqError => .ok (true, [])
    | .success body =>
      match body with
      | .obj kvs =>
        match jsonGetD kvs "status" Json.null with
        | .str s =>
          if s = "ok" then
            match jsonGetD kvs "articles" (Json.arr []) with
            | .arr l => .ok (true, l)
            | _ => .ok (true, [])
          else .ok (true, [])
        | _ => .ok (true, [])
      | _ => .error .attrError

/-- fetch_news method of NetworkingAssistantGUI in app2.py.  It refuses
early when the query is blank or the api_key is falsy (empty, or None
after a failed config import, which the empty string also models), and
its bare except clause catches every exception, so the function is
total.  The first component again records whether requests.get was
reached. -/
def gui_fetch_news (api_key query : String) (net : NetOutcome) :
    Bool × List Json :=
  if pyStrip query = "" ∨ api_key = "" then (false, [])
  else
    match net with
    | .timeout => (true, [])
    | .reqError => (true, [])
    | .success body =>
      match body with
      | .obj kvs =>
        match jsonGetD kvs "status" Json.null with
        | .str s =>
          if s = "ok" then
            match jsonGetD kvs "articles" (Json.arr []) with
            | .arr l => (true, l)
            | _ => (true, [])
          else (true, [])
        | _ => (true, [])
      | _ => (true, [])

/-! ## Website scraper -/

/-- Maximum length of extracted website content (main2.py constant). -/
def MAX_CONTENT_LENGTH : Nat := 5000

/-- Parsed HTML node, as BeautifulSoup presents it: a text node or an
element with a tag and children. -/
inductive HtmlNode where
  | text (s : String)
  | elem (tag : String) (children : List HtmlNode)

mutual
/-- BeautifulSoup get_text() on a node: the concatenation of all text
descendants in document order, with no separator. -/
def getTextN : HtmlNode → String
  | .text s => s
  | .elem _ cs => getTextF cs
/-- BeautifulSoup get_text() over a forest of siblings. -/
def getTextF : List HtmlNode → String
  | [] => ""
  | n :: r => getTextN n ++ getTextF r
end

mutual
/-- Decompose of every script and style element at any depth: the node
survives (with its subtree cleaned) unless it is itself script or style. -/
def decomposeScriptsN : HtmlNode → List HtmlNode
  | .text s => [.text s]
  | .elem t cs =>
    if t == "script" || t == "style" then []
    else [.elem t (decomposeScriptsF cs)]
/-- Decompose of script and style elements over a forest. -/
def decomposeScriptsF : List HtmlNode → List HtmlNode
  | [] => []
  | n :: r => decomposeScriptsN n ++ decomposeScriptsF r
end

mutual
/-- soup.find_all(tags) restricted to one node: every descendant element
(including the node itself) whose tag is in the list, in document order
(depth-first, parents before children). -/
def findAllN (tags : List String) : HtmlNode → List HtmlNode
  | .text _ => []
  | .elem t cs =>
    (if tags.contains t then [HtmlNode.elem t cs] else []) ++ findAllF tags cs
/-- soup.find_all(tags) over a forest of siblings. -/
def findAllF (tags : List String) : List HtmlNode → List HtmlNode
  | [] => []
  | n :: r => findAllN tags n ++ findAllF tags r
end

/-- Run-collapsing scan behind re.sub of one-or-more whitespace with a
single space: prev records whether the previous character was part of a
whitespace run already emitted as one space. -/
def collapseWsAux : Bool → List Char → List Char
  | _, [] => []
  | prev, c :: r =>
    if pyIsSpace c then
      if prev then collapseWsAux true r else ' ' :: collapseWsAux true r
    else c :: collapseWsAux false r

/-- re.sub of one-or-more whitespace characters with a single space. -/
def collapse_whitespace (s : String) : String := ⟨collapseWsAux false s.data⟩

/-- Extraction part of scrape_website (identical in main2.py and
app2.py), applied to the parsed HTML document: remove script and style
elements, collect stripped non-empty heading texts (h1 to h3), stripped
non-empty paragraph texts, and stripped texts of main, article and
section containers longer than 50 characters, join with single spaces,
collapse whitespace runs, strip, and truncate to MAX_CONTENT_LENGTH. -/
def scrape_extract (doc : List HtmlNode) : String :=
  let doc := decomposeScriptsF doc
  let headings :=
    ((findAllF ["h1", "h2", "h3"] doc).map (fun h => pyStrip (getTextN h))).filter
      (fun t => t != "")
  let paragraphs :=
    ((findAllF ["p"] doc).map (fun p => pyStrip (getTextN p))).filter
      (fun t => t != "")
  let mains :=
    ((findAllF ["main", "article", "section"] doc).map
      (fun e => pyStrip (getTextN e))).filter
      (fun t => (t != "") && decide (t.length > 50))
  let content := String.intercalate " " (headings ++ paragraphs ++ mains)
  let content := collapse_whitespace content
  pyTake MAX_CONTENT_LENGTH (pyStrip content)

/-- Outcome of the requests.get call of scrape_website: a timeout, any
other transport or HTTP failure, or a successful response whose HTML
body parses into the given document. -/
inductive ScrapeNet where
  | timeout
  | fetchError
  | success (doc : List HtmlNode)

/-- scrape_website from main2.py (the method in app2.py is identical):
raises ValueError on an invalid URL before any network call, re-raises
timeouts and fetch failures as RuntimeError, and on success returns the
extracted text.  The raised exceptions are the error case. -/
def scrape_website (url : String) (net : ScrapeNet) : Except String String :=
  if !is_valid_url url then .error "Invalid URL provided"
  else
    match net with
    | .timeout => .error "Website request timed out"
    | .fetchError => .error "Error fetching website"
    | .success doc => .ok (scrape_extract doc)

/-! ## Brief generation -/

/-- Contact information gathered by the UI layer. -/
structure ContactInfo where
  name : String
  role : String
  linkedin : String
  company : String
  website : String
  industry : String

/-- Outcome of the single synchronous language-model call. -/
inductive ModelOutcome where
  | ok (text : String)
  | err (msg : String)

/-- Sentinel of generate_summary in main2.py for blank content. -/
def main_sentinel : String := "No content available for summary."

/-- Sentinel of the generate_summary method in app2.py for blank
content or a missing API key. -/
def gui_sentinel : String := "No content available for summary or API key missing."

/-- Fallback text of generate_summary in main2.py when the model call
raises (the exception text is printed, not included). -/
def main_fallback (ci : ContactInfo) : String :=
  "Summary generation failed. Manual notes: Company website and news content were collected for "
    ++ ci.name ++ " at " ++ ci.company ++ "."

/-- Fallback text of the generate_summary method in app2.py when the
model call raises (the exception text is included). -/
def gui_fallback (e : String) (ci : ContactInfo) : String :=
  "Summary generation failed: " ++ e
    ++ ". Manual notes: Company website and news content were collected for "
    ++ ci.name ++ " at " ++ ci.company ++ "."

/-- generate_summary from main2.py.  gemini_api_key models the
module-level credential configured at import; the console function
never consults it after import, which the definition makes visible by
ignoring the parameter.  The first component of the result records
whether model.generate_content was invoked. -/
def generate_summary (gemini_api_key content : String) (ci : ContactInfo)
    (m : ModelOutcome) : Bool × String :=
  if pyStrip content = "" then (false, main_sentinel)
  else
    match m with
    | .ok t => (true, t)
    | .err _ => (true, main_fallback ci)

/-- generate_summary method of NetworkingAssistantGUI in app2.py: it
also refuses when the credential is falsy (empty string, or None after
a failed config import, which the empty string models). -/
def gui_generate_summary (gemini_api_key content : String) (ci : ContactInfo)
    (m : ModelOutcome) : Bool × String :=
  if pyStrip content = "" ∨ gemini_api_key = "" then (false, gui_sentinel)
  else
    match m with
    | .ok t => (true, t)
    | .err e => (true, gui_fallback e ci)

/-! ## Contact store -/

/-- One persisted contact record, with the keys save_to_memory writes.
news_links holds the url values copied out of the article objects; they
are arbitrary JSON values because the source appends whatever truthy
value the url key held. -/
structure Entry where
  name : String
  role : String
  linkedin : String
  company : String
  website : String
  industry : String
  summary : String
  news_links : List Json
  created_date : String

/-- State of the backing JSON file: absent, present but not parseable
as a list, or a parsed list of records. -/
inductive StoreFile where
  | absent
  | corrupt
  | good (records : List Entry)

/-- load_memory from main2.py: an absent file, an unreadable file and a
non-list document all load as the empty list. -/
def load_memory : StoreFile → List Entry
  | .good l => l
  | _ => []

/-- save_memory from main2.py: overwrite the file with the list.  The
model treats the file system as reliable; the IOError branch returning
false is outside the file-system model. -/
def save_memory (l : List Entry) : StoreFile := .good l

/-- Record constructed by save_to_memory: the six identity fields pass
through sanitize_input, summary and news_links are stored verbatim, and
the creation timestamp is the now argument. -/
def mkEntry (name role linkedin company website industry summary : String)
    (news_links : List Json) (created_date : String) : Entry :=
  { name := sanitize_input name
    role := sanitize_input role
    linkedin := sanitize_input linkedin
    company := sanitize_input company
    website := sanitize_input website
    industry := sanitize_input industry
    summary := summary
    news_links := news_links
    created_date := created_date }

/-- save_to_memory from main2.py: refuse (returning false and leaving
the store untouched) when the stripped name or the stripped company is
empty; otherwise load the store, append the sanitized record and write
the result back. -/
def save_to_memory (name role linkedin company website industry summary : String)
    (news_links : List Json) (store : StoreFile) (now : String) :
    Bool × StoreFile :=
  if pyStrip name = "" ∨ pyStrip company = "" then (false, store)
  else
    let entry := mkEntry name role linkedin company website industry summary news_links now
    let memory := load_memory store ++ [entry]
    (true, save_memory memory)

/-- Removal loop of delete_selected_contact in app2.py: scan in order,
pop the first record whose name and company both equal the targets
under Python string equality (exact and case-sensitive), and stop.  The
Boolean records whether a pop occurred, the observable the store
contract calls the removal outcome. -/
def deleteFirstMatch (name company : String) : List Entry → Bool × List Entry
  | [] => (false, [])
  | e :: r =>
    if e.name = name ∧ e.company = company then (true, r)
    else
      let (b, r') := deleteFirstMatch name company r
      (b, e :: r')

/-- delete_selected_contact from app2.py, after the user confirmed:
run the removal loop on the in-memory list and overwrite the store file
with the resulting list. -/
def delete_selected_contact (name company : String) (contacts : List Entry) :
    List Entry × StoreFile :=
  let l' := (deleteFirstMatch name company contacts).2
  (l', save_memory l')

/-! ## Research pipeline (console add_new_contact) -/

/-- Article loop of add_new_contact in main2.py.  Each article object
contributes a bullet line when its title or description is truthy, and
its url to the link list when that is truthy.  An article that is not a
JSON object makes article.get raise AttributeError: the loop stops, the
lines are never used (the append of the news block is skipped by the
exception), but the links appended so far survive because the Python
list was mutated in place.  The first component records whether the
loop raised. -/
def procArticles : List Json → Bool × List String × List Json
  | [] => (false, [], [])
  | a :: rest =>
    match a with
    | .obj kvs =>
      let title := jsonGetD kvs "title" (Json.str "")
      let description := jsonGetD kvs "description" (Json.str "")
      let url := jsonGetD kvs "url" (Json.str "")
      let (raised, lines, links) := procArticles rest
      if pyTruthy title || pyTruthy description then
        let line := "• " ++ pyFmt title ++ ": " ++ pyFmt description
        if pyTruthy url then (raised, line :: lines, url :: links)
        else (raised, line :: lines, links)
      else (raised, lines, links)
    | _ => (true, [], [])

/-- Content-gathering half of add_new_contact in main2.py: the website
block when a website is given, scraping succeeds and yields non-empty
text (any scraping exception is caught and only warned about); then the
news block when an industry is given, fetching succeeds, the article
list is non-empty and the loop produced lines without raising (any
exception in the news step is caught likewise, keeping the partially
collected links).  Returns the combined prompt content and the link
list. -/
def pipeline_content (news_api_key : String) (ci : ContactInfo)
    (scr : ScrapeNet) (net : NetOutcome) : String × List Json :=
  let webBlocks :=
    if ci.website ≠ "" then
      match scrape_website ci.website scr with
      | .ok c => if c ≠ "" then ["Company Website Content:\n" ++ c] else []
      | .error _ => []
    else []
  let newsPart :=
    if ci.industry ≠ "" then
      match fetch_news news_api_key ci.industry net with
      | .error _ => ([], ([] : List Json))
      | .ok (_, articles) =>
        if articles.isEmpty then ([], [])
        else
          let (raised, lines, links) := procArticles articles
          if !raised && !lines.isEmpty then
            (["Recent Industry News:\n" ++ String.intercalate "\n" lines], links)
          else ([], links)
    else ([], [])
  let allContent := webBlocks ++ newsPart.1
  let combined := if allContent.isEmpty then "" else String.intercalate "\n\n" allContent
  (combined, newsPart.2)

/-- Observable result of one console pipeline run. -/
structure PipelineResult where
  summary : String
  news_links : List Json
  saved : Bool
  store : StoreFile

/-- add_new_contact from main2.py, parametrized by the contact data the
UI collected and by the outcomes of the three external calls: gather
content, generate the summary, and hand the record to save_to_memory. -/
def add_new_contact (news_api_key gemini_api_key : String) (ci : ContactInfo)
    (scr : ScrapeNet) (net : NetOutcome) (m : ModelOutcome)
    (store : StoreFile) (now : String) : PipelineResult :=
  let pc := pipeline_content news_api_key ci scr net
  let summary := (generate_summary gemini_api_key pc.1 ci m).2
  let res := save_to_memory ci.name ci.role ci.linkedin ci.company ci.website
    ci.industry summary pc.2 store now
  ⟨summary, pc.2, res.1, res.2⟩


/-! ## Specification-side predicates -/

/-- Truth of the check data.get("status") != "ok" negated: the status
field of a JSON object body is the string ok. -/
def status_ok (kvs : List (String × Json)) : Bool :=
  match jsonGetD kvs "status" Json.null with
  | .str s => s == "ok"
  | _ => false

/-- Truth of isinstance(articles, list) for the articles field of a
JSON object body (with the default empty list when the key is absent). -/
def articles_list (kvs : List (String × Json)) : Bool :=
  match jsonGetD kvs "articles" (Json.arr []) with
  | .arr _ => true
  | _ => false

/-- Failure outcomes enumerated by claim C5: a timeout, another
transport or HTTP error, a JSON object body whose status is not ok, or
a JSON object body whose articles field is not a list. -/
def news_failure : NetOutcome → Prop
  | .timeout => True
  | .reqError => True
  | .success (Json.obj kvs) => status_ok kvs = false ∨ articles_list kvs = false
  | .success _ => False

/-- Specification-side predicate of claim C9, following the spec
words: the whitespace-trimmed string parses as an absolute URL whose
scheme is http or https and whose host component is non-empty. -/
def spec_absolute_http_url (s : String) : Prop :=
  ∃ r, urlparse_model (pyStrip s) = Except.ok r
    ∧ (r.scheme = "http" ∨ r.scheme = "https") ∧ r.netloc ≠ ""

/-- Python slicing s[:n] yields at most n code points. -/
theorem pyTake_length_le (n : Nat) (s : String) : (pyTake n s).length ≤ n := by
  have : (pyTake n s).length = (s.data.take n).length := rfl
  rw [this, List.length_take]
  exact min_le_left _ _

/-- sanitize_input always equals strip followed by truncation to 500
code points (the truthiness branch for the empty string coincides). -/
theorem sanitize_input_take (s : String) : sanitize_input s = pyTake 500 (pyStrip s) := by
  unfold sanitize_input
  by_cases h : s = ""
  · rw [if_pos h, h]; rfl
  · rw [if_neg h]

/-- Console generate_summary returns the blank-content sentinel, the
model text, or the fallback message, whatever the outcomes are. -/
theorem generate_summary_cases (k content : String) (ci : ContactInfo) (m : ModelOutcome) :
    (generate_summary k content ci m).2 = main_sentinel
    ∨ (∃ t, m = ModelOutcome.ok t ∧ (generate_summary k content ci m).2 = t)
    ∨ (generate_summary k content ci m).2 = main_fallback ci := by
  unfold generate_summary
  by_cases h : pyStrip content = ""
  · rw [if_pos h]; exact Or.inl rfl
  · rw [if_neg h]
    cases m with
    | ok t => exact Or.inr (Or.inl ⟨t, rfl, rfl⟩)
    | err e => exact Or.inr (Or.inr rfl)

/-- C1: the console research pipeline add_new_contact is total over
every contact_info, every website-scrape outcome (including an invalid
URL, a timeout and a fetch error), every news outcome (including the
response that makes fetch_news itself raise) and every model outcome:
it is embedded as a total function, so no exception escapes; the
produced record carries a summary that is generated text, the
unavailability sentinel or the fallback message; and the pipeline hands
exactly that record to save_to_memory, the append attempt. -/
theorem c1_pipeline_never_fails (news_api_key gemini_api_key : String) (ci : ContactInfo)
    (scr : ScrapeNet) (net : NetOutcome) (m : ModelOutcome) (store : StoreFile) (now : String) :
    ((add_new_contact news_api_key gemini_api_key ci scr net m store now).summary = main_sentinel
      ∨ (∃ t, m = ModelOutcome.ok t
          ∧ (add_new_contact news_api_key gemini_api_key ci scr net m store now).summary = t)
      ∨ (add_new_contact news_api_key gemini_api_key ci scr net m store now).summary
          = main_fallback ci)
    ∧ ((add_new_contact news_api_key gemini_api_key ci scr net m store now).saved,
        (add_new_contact news_api_key gemini_api_key ci scr net m store now).store)
      = save_to_memory ci.name ci.role ci.linkedin ci.company ci.website ci.industry
          (add_new_contact news_api_key gemini_api_key ci scr net m store now).summary
          (add_new_contact news_api_key gemini_api_key ci scr net m store now).news_links
          store now := by
  refine ⟨?_, rfl⟩
  exact generate_summary_cases gemini_api_key (pipeline_content news_api_key ci scr net).1 ci m

/-- C2 counterexample: with a blank name the persistence step
save_to_memory refuses, returns false and leaves the store unchanged,
so no record with empty fields is produced or appended — refuting the
claim that the pipeline does not re-validate name and company. -/
theorem c2_counterexample :
    save_to_memory "" "r" "l" "Acme" "w" "i" "s" [] (StoreFile.good []) "2025-01-01"
      = (false, StoreFile.good []) := rfl

/-- C2 amended: the console persistence step does re-validate: when
the stripped name or the stripped company is empty, save_to_memory
returns false and leaves the store untouched, appending nothing. -/
theorem c2_amended (name role linkedin company website industry summary : String)
    (news_links : List Json) (store : StoreFile) (now : String)
    (h : pyStrip name = "" ∨ pyStrip company = "") :
    save_to_memory name role linkedin company website industry summary news_links store now
      = (false, store) := by
  unfold save_to_memory
  rw [if_pos h]

/-- C2 amended witness at a whitespace-only name. -/
theorem c2_amended_witness :
    save_to_memory "   " "r" "l" "Acme" "w" "i" "s" [] (StoreFile.good []) "d"
      = (false, StoreFile.good []) :=
  c2_amended "   " "r" "l" "Acme" "w" "i" "s" [] (StoreFile.good []) "d" (Or.inl rfl)

/-- C3 counterexample: the console fetch_news with an unconfigured
(empty) API key and a non-blank query still reaches requests.get (first
component true): the network request is issued, refuting the claim that
no request happens when no API key is configured. -/
theorem c3_counterexample :
    fetch_news "" "tech" NetOutcome.timeout = Except.ok (true, []) := rfl

/-- C3 amended: the GUI fetch_news returns an empty list without
issuing the request when the query is blank or the API key is missing;
the console fetch_news guarantees this only for blank queries. -/
theorem c3_amended (api_key query : String) (net : NetOutcome)
    (h : pyStrip query = "" ∨ api_key = "") :
    gui_fetch_news api_key query net = (false, [])
    ∧ (pyStrip query = "" → fetch_news api_key query net = Except.ok (false, [])) := by
  constructor
  · unfold gui_fetch_news; rw [if_pos h]
  · intro hq; unfold fetch_news; rw [if_pos hq]

/-- C3 amended witness at a whitespace-only query. -/
theorem c3_amended_witness :
    gui_fetch_news "k" "  " NetOutcome.reqError = (false, [])
    ∧ (pyStrip "  " = "" → fetch_news "k" "  " NetOutcome.reqError = Except.ok (false, [])) :=
  c3_amended "k" "  " NetOutcome.reqError (Or.inl rfl)

/-- C4 counterexample: the console generate_summary with an
unconfigured (empty) language-model credential and non-blank content
still invokes the model (first component true) and, on a model error,
returns the fallback rather than the unavailability sentinel — refuting
the claim that a missing credential prevents the model call. -/
theorem c4_counterexample :
    generate_summary "" "x" ⟨"Alice", "", "", "Acme", "", ""⟩ (ModelOutcome.err "boom")
      = (true, main_fallback ⟨"Alice", "", "", "Acme", "", ""⟩) := rfl

/-- C4 amended: the GUI generate_summary returns its sentinel without
invoking the model when the content is blank or the credential is
missing; the console generate_summary guarantees this only for blank
content. -/
theorem c4_amended (gemini_api_key content : String) (ci : ContactInfo) (m : ModelOutcome)
    (h : pyStrip content = "" ∨ gemini_api_key = "") :
    gui_generate_summary gemini_api_key content ci m = (false, gui_sentinel)
    ∧ (pyStrip content = "" →
        generate_summary gemini_api_key content ci m = (false, main_sentinel)) := by
  constructor
  · unfold gui_generate_summary; rw [if_pos h]
  · intro hc; unfold generate_summary; rw [if_pos hc]

/-- C4 amended witness at whitespace-only content. -/
theorem c4_amended_witness :
    gui_generate_summary "k" " " ⟨"A", "", "", "B", "", ""⟩ (ModelOutcome.ok "t")
      = (false, gui_sentinel)
    ∧ (pyStrip " " = "" →
        generate_summary "k" " " ⟨"A", "", "", "B", "", ""⟩ (ModelOutcome.ok "t")
          = (false, main_sentinel)) :=
  c4_amended "k" " " ⟨"A", "", "", "B", "", ""⟩ (ModelOutcome.ok "t") (Or.inl rfl)

/-- C5 counterexample: the console fetch_news raises AttributeError
when the service responds with a valid JSON body whose top level is a
list, because data.get is called on a non-dict and neither except
clause (Timeout, RequestException) catches AttributeError — refuting
the claim that fetch_news never raises for any service response. -/
theorem c5_counterexample :
    fetch_news "key" "tech" (NetOutcome.success (Json.arr [])) = Except.error PyErr.attrError := rfl

/-- C5 amended: on the enumerated failures — timeout, other
transport or HTTP error, an object body with a non-ok status, an object
body with a non-list articles field — the GUI fetch_news returns an
empty list, and the console fetch_news returns an empty list without
raising; only a non-object JSON body makes the console version raise. -/
theorem c5_amended (api_key query : String) (net : NetOutcome) (h : news_failure net) :
    (gui_fetch_news api_key query net).2 = []
    ∧ fetch_news api_key query net
      = (if pyStrip query = "" then Except.ok (false, []) else Except.ok (true, [])) := by
  cases net with
  | timeout =>
    constructor
    · unfold gui_fetch_news; split <;> rfl
    · unfold fetch_news; split <;> rfl
  | reqError =>
    constructor
    · unfold gui_fetch_news; split <;> rfl
    · unfold fetch_news; split <;> rfl
  | success body =>
    cases body with
    | obj kvs =>
      have hpair : (match jsonGetD kvs "status" Json.null with
          | Json.str s =>
            if s = "ok" then
              match jsonGetD kvs "articles" (Json.arr []) with
              | Json.arr l => (true, l)
              | _ => (true, [])
            else (true, [])
          | _ => (true, [])) = ((true, []) : Bool × List Json) := by
        rcases h with h | h
        · unfold status_ok at h
          cases hst : jsonGetD kvs "status" Json.null <;> simp [hst] at h ⊢
          intro he; rw [he] at h; simp at h
        · unfold articles_list at h
          cases hst : jsonGetD kvs "status" Json.null <;> simp
          intro he
          cases hart : jsonGetD kvs "articles" (Json.arr []) <;> simp [hart] at h ⊢
      have hexc : (match jsonGetD kvs "status" Json.null with
          | Json.str s =>
            if s = "ok" then
              match jsonGetD kvs "articles" (Json.arr []) with
              | Json.arr l => Except.ok (true, l)
              | _ => Except.ok (true, [])
            else Except.ok (true, [])
          | _ => Except.ok (true, []))
          = (Except.ok (true, []) : Except PyErr (Bool × List Json)) := by
        rcases h with h | h
        · unfold status_ok at h
          cases hst : jsonGetD kvs "status" Json.null <;> simp [hst] at h ⊢
          intro he; rw [he] at h; simp at h
        · unfold articles_list at h
          cases hst : jsonGetD kvs "status" Json.null <;> simp
          intro he
          cases hart : jsonGetD kvs "articles" (Json.arr []) <;> simp [hart] at h ⊢
      constructor
      · unfold gui_fetch_news
        split
        · rfl
        · exact congrArg Prod.snd hpair
      · unfold fetch_news
        split
        · rfl
        · exact hexc
    | null => exact absurd h (by simp [news_failure])
    | bool b => exact absurd h (by simp [news_failure])
    | num n => exact absurd h (by simp [news_failure])
    | str s => exact absurd h (by simp [news_failure])
    | arr l => exact absurd h (by simp [news_failure])

/-- C5 amended witness at the timeout outcome. -/
theorem c5_amended_witness :
    (gui_fetch_news "k" "tech" NetOutcome.timeout).2 = []
    ∧ fetch_news "k" "tech" NetOutcome.timeout
      = (if pyStrip "tech" = "" then Except.ok (false, []) else Except.ok (true, [])) :=
  c5_amended "k" "tech" NetOutcome.timeout trivial

/-- C6: every successful scrape_website extraction returns text of at
most 5000 characters, for every input HTML document, by the final
truncation to MAX_CONTENT_LENGTH. -/
theorem c6_extract_bounded (url : String) (net : ScrapeNet) (text : String)
    (h : scrape_website url net = Except.ok text) : text.length ≤ 5000 := by
  unfold scrape_website at h
  split at h
  · exact absurd h (by simp)
  · cases net with
    | timeout => exact absurd h (by simp)
    | fetchError => exact absurd h (by simp)
    | success doc =>
      have : scrape_extract doc = text := by
        injection h
      rw [← this]
      exact pyTake_length_le 5000 _

/-- C6 witness at a valid URL and an empty document. -/
theorem c6_witness :
    scrape_website "http://x" (ScrapeNet.success []) = Except.ok "" ∧ ("" : String).length ≤ 5000 :=
  ⟨rfl, c6_extract_bounded "http://x" (ScrapeNet.success []) "" rfl⟩

/-- C7 counterexample: appending a record with a blank name to an
empty store leaves the store empty, so the subsequent load has no last
element at all — refuting the round-trip claim for every record. -/
theorem c7_counterexample :
    (load_memory (save_to_memory "" "" "" "" "" "" "s" [] (StoreFile.good []) "d").2).getLast?
      = (none : Option Entry) := rfl

/-- C7 amended: when the appended record has non-blank name and
company, append followed by load yields the prior records with the
sanitized entry built from the given fields at the end, whose last
element is exactly that entry. -/
theorem c7_amended (name role linkedin company website industry summary : String)
    (news_links : List Json) (store : StoreFile) (now : String)
    (h1 : pyStrip name ≠ "") (h2 : pyStrip company ≠ "") :
    load_memory (save_to_memory name role linkedin company website industry summary
        news_links store now).2
      = load_memory store
          ++ [mkEntry name role linkedin company website industry summary news_links now]
    ∧ (load_memory (save_to_memory name role linkedin company website industry summary
        news_links store now).2).getLast?
      = some (mkEntry name role linkedin company website industry summary news_links now) := by
  have hcond : ¬ (pyStrip name = "" ∨ pyStrip company = "") := by
    rintro (h | h)
    · exact h1 h
    · exact h2 h
  unfold save_to_memory
  rw [if_neg hcond]
  exact ⟨rfl, List.getLast?_concat _⟩

/-- C7 amended witness appending to an absent store file. -/
theorem c7_amended_witness :
    load_memory (save_to_memory "Alice" "" "" "Acme" "" "" "s" [] StoreFile.absent "d").2
      = load_memory StoreFile.absent ++ [mkEntry "Alice" "" "" "Acme" "" "" "s" [] "d"]
    ∧ (load_memory (save_to_memory "Alice" "" "" "Acme" "" "" "s" [] StoreFile.absent "d").2).getLast?
      = some (mkEntry "Alice" "" "" "Acme" "" "" "s" [] "d") :=
  c7_amended "Alice" "" "" "Acme" "" "" "s" [] StoreFile.absent "d"
    (by decide) (by decide)

/-- C8: the delete loop scans in order and pops exactly the first
record whose name and company both match under exact, case-sensitive
string equality, reporting true, or reports false and leaves the list
unchanged when none matches; delete_selected_contact persists exactly
the resulting list, so a removal shortens the store by one and a miss
leaves its contents unchanged. -/
theorem c8_delete_semantics (name company : String) (contacts : List Entry) :
    (deleteFirstMatch name company contacts
      = match contacts.findIdx? (fun e => e.name == name && e.company == company) with
        | some i => (true, contacts.eraseIdx i)
        | none => (false, contacts))
    ∧ delete_selected_contact name company contacts
      = ((deleteFirstMatch name company contacts).2,
          StoreFile.good (deleteFirstMatch name company contacts).2) := by
  refine ⟨?_, rfl⟩
  induction contacts with
  | nil => simp [deleteFirstMatch, List.findIdx?]
  | cons e r ih =>
    by_cases hm : e.name = name ∧ e.company = company
    · rw [deleteFirstMatch, if_pos hm]
      have hp : (e.name == name && e.company == company) = true := by
        simp [hm.1, hm.2]
      simp [List.findIdx?_cons, hp]
    · rw [deleteFirstMatch, if_neg hm]
      have hp : (e.name == name && e.company == company) = false := by
        rcases not_and_or.mp hm with h | h <;> simp [h]
      rw [List.findIdx?_cons, hp]
      cases hfi : r.findIdx? (fun e => e.name == name && e.company == company) with
      | none =>
        rw [hfi] at ih
        simp [ih, hfi]
      | some i =>
        rw [hfi] at ih
        simp [ih, hfi, List.eraseIdx_cons_succ]

/-- C9: is_valid_url returns true exactly when the whitespace-trimmed
string parses as an absolute URL with scheme http or https and a
non-empty host; it is a total Boolean function, so it never raises and
yields false on malformed input (the parse error case). -/
theorem c9_is_valid_url_spec (s : String) :
    is_valid_url s = true ↔ spec_absolute_http_url s := by
  unfold is_valid_url spec_absolute_http_url
  cases h : urlparse_model (pyStrip s) with
  | error e => simp [h]
  | ok r => simp [h, Bool.and_eq_true, Bool.or_eq_true]

/-- C10: every record persisted through the console save_to_memory
has its name, role, linkedin, company, website and industry fields
whitespace-stripped and truncated to at most 500 characters by
sanitize_input, while summary, news_links and the creation date are
stored verbatim. -/
theorem c10_sanitize_invariant
    (name role linkedin company website industry summary : String)
    (news_links : List Json) (store : StoreFile) (now : String)
    (h : (save_to_memory name role linkedin company website industry summary
        news_links store now).1 = true) :
    (save_to_memory name role linkedin company website industry summary
        news_links store now).2
      = StoreFile.good (load_memory store
          ++ [mkEntry name role linkedin company website industry summary news_links now])
    ∧ (mkEntry name role linkedin company website industry summary news_links now).name
        = pyTake 500 (pyStrip name)
    ∧ (mkEntry name role linkedin company website industry summary news_links now).name.length ≤ 500
    ∧ (mkEntry name role linkedin company website industry summary news_links now).role
        = pyTake 500 (pyStrip role)
    ∧ (mkEntry name role linkedin company website industry summary news_links now).role.length ≤ 500
    ∧ (mkEntry name role linkedin company website industry summary news_links now).linkedin
        = pyTake 500 (pyStrip linkedin)
    ∧ (mkEntry name role linkedin company website industry summary news_links now).linkedin.length ≤ 500
    ∧ (mkEntry name role linkedin company website industry summary news_links now).company
        = pyTake 500 (pyStrip company)
    ∧ (mkEntry name role linkedin company website industry summary news_links now).company.length ≤ 500
    ∧ (mkEntry name role linkedin company website industry summary news_links now).website
        = pyTake 500 (pyStrip website)
    ∧ (mkEntry name role linkedin company website industry summary news_links now).website.length ≤ 500
    ∧ (mkEntry name role linkedin company website industry summary news_links now).industry
        = pyTake 500 (pyStrip industry)
    ∧ (mkEntry name role linkedin company website industry summary news_links now).industry.length ≤ 500
    ∧ (mkEntry name role linkedin company website industry summary news_links now).summary = summary
    ∧ (mkEntry name role linkedin company website industry summary news_links now).news_links
        = news_links
    ∧ (mkEntry name role linkedin company website industry summary news_links now).created_date
        = now := by
  refine ⟨?_, ?_⟩
  · by_cases hc : pyStrip name = "" ∨ pyStrip company = ""
    · exfalso
      unfold save_to_memory at h
      rw [if_pos hc] at h
      exact Bool.false_ne_true h
    · unfold save_to_memory
      rw [if_neg hc]
      rfl
  · refine ⟨sanitize_input_take name, ?_, sanitize_input_take role, ?_,
      sanitize_input_take linkedin, ?_, sanitize_input_take company, ?_,
      sanitize_input_take website, ?_, sanitize_input_take industry, ?_,
      rfl, rfl, rfl⟩
    · rw [show (mkEntry name role linkedin company website industry summary news_links now).name
        = sanitize_input name from rfl, sanitize_input_take]
      exact pyTake_length_le 500 _
    · rw [show (mkEntry name role linkedin company website industry summary news_links now).role
        = sanitize_input role from rfl, sanitize_input_take]
      exact pyTake_length_le 500 _
    · rw [show (mkEntry name role linkedin company website industry summary news_links now).linkedin
        = sanitize_input linkedin from rfl, sanitize_input_take]
      exact pyTake_length_le 500 _
    · rw [show (mkEntry name role linkedin company website industry summary news_links now).company
        = sanitize_input company from rfl, sanitize_input_take]
      exact pyTake_length_le 500 _
    · rw [show (mkEntry name role linkedin company website industry summary news_links now).website
        = sanitize_input website from rfl, sanitize_input_take]
      exact pyTake_length_le 500 _
    · rw [show (mkEntry name role linkedin company website industry summary news_links now).industry
        = sanitize_input industry from rfl, sanitize_input_take]
      exact pyTake_length_le 500 _

/-- C10 witness at a concrete successful save. -/
theorem c10_witness :
    (save_to_memory "Alice" "r" "li" "Acme" "w" "i" "sum" [] (StoreFile.good []) "d").1 = true
    ∧ ((save_to_memory "Alice" "r" "li" "Acme" "w" "i" "sum" [] (StoreFile.good []) "d").2
        = StoreFile.good (load_memory (StoreFile.good [])
            ++ [mkEntry "Alice" "r" "li" "Acme" "w" "i" "sum" [] "d"])
      ∧ (mkEntry "Alice" "r" "li" "Acme" "w" "i" "sum" [] "d").name = pyTake 500 (pyStrip "Alice")
      ∧ (mkEntry "Alice" "r" "li" "Acme" "w" "i" "sum" [] "d").name.length ≤ 500
      ∧ (mkEntry "Alice" "r" "li" "Acme" "w" "i" "sum" [] "d").role = pyTake 500 (pyStrip "r")
      ∧ (mkEntry "Alice" "r" "li" "Acme" "w" "i" "sum" [] "d").role.length ≤ 500
      ∧ (mkEntry "Alice" "r" "li" "Acme" "w" "i" "sum" [] "d").linkedin = pyTake 500 (pyStrip "li")
      ∧ (mkEntry "Alice" "r" "li" "Acme" "w" "i" "sum" [] "d").linkedin.length ≤ 500
      ∧ (mkEntry "Alice" "r" "li" "Acme" "w" "i" "sum" [] "d").company = pyTake 500 (pyStrip "Acme")
      ∧ (mkEntry "Alice" "r" "li" "Acme" "w" "i" "sum" [] "d").company.length ≤ 500
      ∧ (mkEntry "Alice" "r" "li" "Acme" "w" "i" "sum" [] "d").website = pyTake 500 (pyStrip "w")
      ∧ (mkEntry "Alice" "r" "li" "Acme" "w" "i" "sum" [] "d").website.length ≤ 500
      ∧ (mkEntry "Alice" "r" "li" "Acme" "w" "i" "sum" [] "d").industry = pyTake 500 (pyStrip "i")
      ∧ (mkEntry "Alice" "r" "li" "Acme" "w" "i" "sum" [] "d").industry.length ≤ 500
      ∧ (mkEntry "Alice" "r" "li" "Acme" "w" "i" "sum" [] "d").summary = "sum"
      ∧ (mkEntry "Alice" "r" "li" "Acme" "w" "i" "sum" [] "d").news_links = []
      ∧ (mkEntry "Alice" "r" "li" "Acme" "w" "i" "sum" [] "d").created_date = "d") :=
  ⟨rfl, c10_sanitize_invariant "Alice" "r" "li" "Acme" "w" "i" "sum" [] (StoreFile.good []) "d" rfl⟩
